import Mathlib

/-!
Verification of the kairat-notify scrape-and-notify loop

A shallow embedding of `src/parser.ts` and the scheduler in the bot entry
point (`checkAndNotify`, the `/status` and `/help` handlers), together with
theorems settling the specification's claims about them.

Modelling conventions:
* A fetched, parsed HTML page is a `List MatchBlock`: the elements matched by
  the `.match-block` selector, in document order.  Inside a block, the
  `.match-block__name` elements are a `List String` and the elements matched
  by the ticket-button selector are a `List TicketButton`.
* `new URL(href, BASE_URL).href` is abstracted as a parameter
  `resolve : String → String`; the code only applies it to non-empty hrefs
  (JavaScript's `attr ? … : ""` test is falsy on both `undefined` and `""`).
* A fetch attempt's outcome is `Except String ParseResult`, the error being
  the thrown error's message text.  `parseButtonsWithRetry` consumes a stream
  `Nat → Except String ParseResult` of attempt outcomes and reports the number
  of attempts made and the list of delays (ms) waited.
* Sending a Telegram message is modelled as emitting a `Notification` event;
  functions return the list of events emitted, in order, plus the number of
  fetch attempts performed, so that "zero outbound messages" and "zero fetch
  calls" are directly expressible.
-/

namespace KairatNotify

/-- Model of `ButtonStatus` from `src/types.ts`: whether the ticket action is enabled
and its (resolved) link. -/
structure ButtonStatus where
  isEnabled : Bool
  href : String
deriving DecidableEq, Repr

/-- Model of `ParseResult` from `src/types.ts`: the snapshot for the two fixed
entities. -/
structure ParseResult where
  aktobe : ButtonStatus
  realMadrid : ButtonStatus
deriving DecidableEq, Repr

/-- One element matched by the ticket-button selector
`a.match-block__tickets.skew.simple-filled-btn`: its class list and its
optional `href` attribute. -/
structure TicketButton where
  classes : List String
  href : Option String
deriving DecidableEq, Repr

/-- One element matched by `.match-block`: the texts of its
`.match-block__name` descendants and its ticket-button descendants. -/
structure MatchBlock where
  teamNames : List String
  ticketButtons : List TicketButton
deriving DecidableEq, Repr

/-- JavaScript's `String.prototype.trim()` as used at parser.ts line 52:
strip leading and trailing whitespace.  (Defined over the character list so
that it evaluates by kernel reduction.) -/
def jsTrim (s : String) : String :=
  String.mk
    (((s.data.dropWhile Char.isWhitespace).reverse.dropWhile
      Char.isWhitespace).reverse)

/-- The inner loop of `findMatchByOpponent` (parser.ts lines 50–57): some
`.match-block__name` text, trimmed, equals the opponent name exactly. -/
def blockHasOpponent (b : MatchBlock) (opponentName : String) : Bool :=
  b.teamNames.any (fun tn => jsTrim tn == opponentName)

/-- cheerio `.hasClass(c)` on a selection: true iff some selected element
carries the class. -/
def buttonsHasClass (bs : List TicketButton) (c : String) : Bool :=
  bs.any (fun b => b.classes.contains c)

/-- cheerio `.attr("href")` on a selection: the attribute of the first
selected element, `undefined` (`none`) if the selection is empty or the first
element lacks the attribute. -/
def buttonsAttrHref (bs : List TicketButton) : Option String :=
  match bs with
  | [] => none
  | b :: _ => b.href

/-- The `href` computed at parser.ts lines 69–71:
`button.attr("href") ? new URL(button.attr("href")!, BASE_URL).href : ""`.
JavaScript's conditional is falsy on `undefined` and on the empty string. -/
def buttonHrefJS (resolve : String → String) (bs : List TicketButton) : String :=
  match buttonsAttrHref bs with
  | some h => if h = "" then "" else resolve h
  | none => ""

/-- The function `findMatchByOpponent` from parser.ts lines 42–80: scan the match blocks in
order; in the first block containing the opponent name, if the ticket-button
selection is empty, `continue` with the later blocks, otherwise return
`{ isEnabled := not hasClass "disabled", href := … }`. -/
def findMatchByOpponent (resolve : String → String) (opponentName : String) :
    List MatchBlock → Option ButtonStatus
  | [] => none
  | b :: rest =>
    if blockHasOpponent b opponentName then
      if b.ticketButtons.isEmpty then
        findMatchByOpponent resolve opponentName rest
      else
        some { isEnabled := !(buttonsHasClass b.ticketButtons "disabled"),
               href := buttonHrefJS resolve b.ticketButtons }
    else
      findMatchByOpponent resolve opponentName rest

/-- The body of `parseButtons` after a successful HTTP fetch (parser.ts lines
29–100), generalized over the per-entity lookup so that independence from the
lookup can be stated: fail if zero match blocks, then look up the two fixed
opponents, fail naming the first one missing, else build the `ParseResult`. -/
def parseButtonsWith (lookup : String → Option ButtonStatus)
    (blocks : List MatchBlock) : Except String ParseResult :=
  if blocks.length = 0 then
    Except.error "No match blocks found on the page"
  else
    let aktobeMatch := lookup "Актобе"
    let realMadridMatch := lookup "Реал Мадрид"
    match aktobeMatch with
    | none => Except.error "Match against Актобе not found on the page"
    | some a =>
      match realMadridMatch with
      | none => Except.error "Match against Реал Мадрид not found on the page"
      | some r => Except.ok { aktobe := a, realMadrid := r }

/-- The function `parseButtons` from parser.ts, applied to an already-fetched page: the
lookup is `findMatchByOpponent` over the page's match blocks. -/
def parseButtons (resolve : String → String) (blocks : List MatchBlock) :
    Except String ParseResult :=
  parseButtonsWith (fun name => findMatchByOpponent resolve name blocks) blocks

/-- The function `parseButtonsWithRetry` from parser.ts lines 119–127, over a stream of
attempt outcomes: try attempt 0; on success return it having made 1 attempt
and waited no delay; on failure wait 2000 ms and return attempt 1's outcome
unmodified, having made 2 attempts.  Result: (outcome, attempts, delays). -/
def parseButtonsWithRetry (fetch : Nat → Except String ParseResult) :
    Except String ParseResult × Nat × List Nat :=
  match fetch 0 with
  | Except.ok r => (Except.ok r, 1, [])
  | Except.error _ => (fetch 1, 2, [2000])

/-- An outbound Telegram message, by kind and content (`src/notifier.ts`). -/
inductive Notification where
  | statusChange (eventTitle : String) (href : String)
  | errorNotif (errorText : String)
  | manualStatus (result : ParseResult)
  | helpMessage
  | operational
  | startup
deriving DecidableEq, Repr

/-- Does the notification announce a status change (for any entity)? -/
def isStatusChange : Notification → Bool
  | Notification.statusChange _ _ => true
  | _ => false

/-- Does the notification announce a status change for the event with the
given display title? -/
def isStatusChangeFor (title : String) : Notification → Bool
  | Notification.statusChange t _ => t == title
  | _ => false

/-- The scheduler's run state (index.ts lines 184–185): the previous snapshot
(null before the first successful check) and the `isChecking` guard. -/
structure BotState where
  previousStatus : Option ParseResult
  isChecking : Bool
deriving DecidableEq, Repr

/-- The function `checkAndNotify` from the bot entry point (lines 190–256), as a function
of the combined outcome of `parseButtonsWithRetry` for this cycle.  Returns
(new state, notifications emitted in order, retry-wrapper invocations).
If the guard is set, return immediately with no fetch and no notifications.
Otherwise set the guard and fetch; on success, if a previous snapshot exists
emit a status-change notification per entity whose `isEnabled` went
false → true, then store the result as the previous snapshot; on error emit
one error notification with the error's text and leave the previous snapshot
unchanged; the `finally` clears the guard on both paths. -/
def checkAndNotify (fetchResult : Except String ParseResult) (s : BotState) :
    BotState × List Notification × Nat :=
  if s.isChecking then
    (s, [], 0)
  else
    match fetchResult with
    | Except.ok result =>
      let notifs :=
        match s.previousStatus with
        | some prev =>
          (if !prev.aktobe.isEnabled && result.aktobe.isEnabled then
            [Notification.statusChange "Матч с Актобе" result.aktobe.href]
          else []) ++
          (if !prev.realMadrid.isEnabled && result.realMadrid.isEnabled then
            [Notification.statusChange "Матч с Реал Мадрид" result.realMadrid.href]
          else [])
        | none => []
      ({ previousStatus := some result, isChecking := false }, notifs, 1)
    | Except.error e =>
      ({ previousStatus := s.previousStatus, isChecking := false },
       [Notification.errorNotif e], 1)

/-- The `/status` handler (bot entry point, lines 275–296): if the sender's
chat id differs from the configured `CHAT_ID`, return without fetching or
sending; otherwise fetch via the retry wrapper and send a manual-status
message, or an error message if the fetch failed.  Returns (notifications,
fetch attempts performed). -/
def statusCommand (chatId CHAT_ID : String)
    (fetch : Nat → Except String ParseResult) : List Notification × Nat :=
  if chatId ≠ CHAT_ID then
    ([], 0)
  else
    match parseButtonsWithRetry fetch with
    | (Except.ok r, n, _) => ([Notification.manualStatus r], n)
    | (Except.error e, n, _) => ([Notification.errorNotif e], n)

/-- The `/help` handler (bot entry point, lines 299–323): if the sender's chat
id differs from `CHAT_ID`, return without sending; otherwise send the help
message.  It performs no fetch. -/
def helpCommand (chatId CHAT_ID : String) : List Notification :=
  if chatId ≠ CHAT_ID then [] else [Notification.helpMessage]

/-! ## Helper lemmas about the block scan and `parseButtons` -/

theorem findMatch_cons_not_found (resolve : String → String) (name : String)
    (b : MatchBlock) (rest : List MatchBlock)
    (hb : blockHasOpponent b name = false) :
    findMatchByOpponent resolve name (b :: rest) =
      findMatchByOpponent resolve name rest := by
  simp [findMatchByOpponent, hb]

theorem findMatch_cons_no_button (resolve : String → String) (name : String)
    (b : MatchBlock) (rest : List MatchBlock)
    (hbtn : b.ticketButtons = []) :
    findMatchByOpponent resolve name (b :: rest) =
      findMatchByOpponent resolve name rest := by
  simp [findMatchByOpponent, hbtn]

theorem findMatch_cons_found (resolve : String → String) (name : String)
    (b : MatchBlock) (rest : List MatchBlock)
    (hb : blockHasOpponent b name = true) (hbtn : b.ticketButtons ≠ []) :
    findMatchByOpponent resolve name (b :: rest) =
      some { isEnabled := !(buttonsHasClass b.ticketButtons "disabled"),
             href := buttonHrefJS resolve b.ticketButtons } := by
  have hbe : b.ticketButtons.isEmpty = false := by
    cases hbl : b.ticketButtons with
    | nil => exact absurd hbl hbtn
    | cons x xs => rfl
  simp [findMatchByOpponent, hb, hbe]

theorem findMatch_append_skipped (resolve : String → String) (name : String)
    (pre l : List MatchBlock)
    (hpre : ∀ p ∈ pre, blockHasOpponent p name = false ∨ p.ticketButtons = []) :
    findMatchByOpponent resolve name (pre ++ l) =
      findMatchByOpponent resolve name l := by
  induction pre with
  | nil => rfl
  | cons p pre ih =>
    have hrest : ∀ q ∈ pre, blockHasOpponent q name = false ∨ q.ticketButtons = [] :=
      fun q hq => hpre q (List.mem_cons_of_mem _ hq)
    rcases hpre p (List.mem_cons_self _ _) with hp | hp
    · rw [List.cons_append, findMatch_cons_not_found resolve name p _ hp, ih hrest]
    · rw [List.cons_append, findMatch_cons_no_button resolve name p _ hp, ih hrest]

theorem findMatch_none_of_all_skipped (resolve : String → String) (name : String)
    (blocks : List MatchBlock)
    (h : ∀ q ∈ blocks, blockHasOpponent q name = true → q.ticketButtons = []) :
    findMatchByOpponent resolve name blocks = none := by
  induction blocks with
  | nil => rfl
  | cons b rest ih =>
    have hrest : ∀ q ∈ rest, blockHasOpponent q name = true → q.ticketButtons = [] :=
      fun q hq => h q (List.mem_cons_of_mem _ hq)
    cases hb : blockHasOpponent b name with
    | false => rw [findMatch_cons_not_found resolve name b rest hb, ih hrest]
    | true =>
      rw [findMatch_cons_no_button resolve name b rest
        (h b (List.mem_cons_self _ _) hb), ih hrest]

theorem parseButtons_error_aktobe (resolve : String → String)
    (blocks : List MatchBlock) (hne : blocks ≠ [])
    (ha : findMatchByOpponent resolve "Актобе" blocks = none) :
    parseButtons resolve blocks =
      Except.error "Match against Актобе not found on the page" := by
  have hlen : blocks.length ≠ 0 := by
    simpa using fun h => hne (List.length_eq_zero.mp h)
  simp [parseButtons, parseButtonsWith, hlen, ha]

theorem parseButtons_error_realMadrid (resolve : String → String)
    (blocks : List MatchBlock) (hne : blocks ≠ []) (a : ButtonStatus)
    (ha : findMatchByOpponent resolve "Актобе" blocks = some a)
    (hr : findMatchByOpponent resolve "Реал Мадрид" blocks = none) :
    parseButtons resolve blocks =
      Except.error "Match against Реал Мадрид not found on the page" := by
  have hlen : blocks.length ≠ 0 := by
    simpa using fun h => hne (List.length_eq_zero.mp h)
  simp [parseButtons, parseButtonsWith, hlen, ha, hr]

theorem parseButtons_not_ok (resolve : String → String)
    (blocks : List MatchBlock)
    (h : findMatchByOpponent resolve "Актобе" blocks = none ∨
      findMatchByOpponent resolve "Реал Мадрид" blocks = none) :
    ∀ r, parseButtons resolve blocks ≠ Except.ok r := by
  intro r
  by_cases hlen : blocks.length = 0
  · simp [parseButtons, parseButtonsWith, hlen]
  · rcases h with h | h
    · simp [parseButtons, parseButtonsWith, hlen, h]
    · cases ha : findMatchByOpponent resolve "Актобе" blocks with
      | none => simp [parseButtons, parseButtonsWith, hlen, ha]
      | some a => simp [parseButtons, parseButtonsWith, hlen, ha, h]

/-! ## Claim theorems -/

/-- C1: with a previous snapshot present, a status-change notification for an
entity is emitted iff that entity's `isEnabled` was `false` in the previous
snapshot and is `true` in the current one (strictly edge-triggered on the
false → true transition, per entity); with no previous snapshot, the cycle
emits no notifications at all. -/
theorem C1_status_change_edge_triggered (prev r : ParseResult) :
    ((checkAndNotify (Except.ok r) ⟨some prev, false⟩).2.1.any
        (isStatusChangeFor "Матч с Актобе") = true ↔
      prev.aktobe.isEnabled = false ∧ r.aktobe.isEnabled = true) ∧
    ((checkAndNotify (Except.ok r) ⟨some prev, false⟩).2.1.any
        (isStatusChangeFor "Матч с Реал Мадрид") = true ↔
      prev.realMadrid.isEnabled = false ∧ r.realMadrid.isEnabled = true) ∧
    (checkAndNotify (Except.ok r) ⟨none, false⟩).2.1 = [] := by
  obtain ⟨⟨pa, pha⟩, ⟨pm, phm⟩⟩ := prev
  obtain ⟨⟨ra, rha⟩, ⟨rm, rhm⟩⟩ := r
  refine ⟨?_, ?_, rfl⟩ <;>
    cases pa <;> cases pm <;> cases ra <;> cases rm <;>
      simp [checkAndNotify, isStatusChangeFor]

/-- C2: invoking the cycle while the `isChecking` guard is set returns
immediately with the state unchanged, zero notifications and zero fetch
calls; and any invocation that actually runs (guard clear) leaves the guard
clear on return, on both the success and the error path. -/
theorem C2_guard (fetchResult : Except String ParseResult) (s : BotState) :
    (s.isChecking = true → checkAndNotify fetchResult s = (s, [], 0)) ∧
    (s.isChecking = false →
      (checkAndNotify fetchResult s).1.isChecking = false) := by
  constructor
  · intro h
    simp [checkAndNotify, h]
  · intro h
    cases fetchResult <;> simp [checkAndNotify, h]

/-- C2 witness: the guard theorem at a concrete blocked state and a concrete
running state. -/
theorem C2_guard_witness :
    checkAndNotify (Except.error "e") ⟨none, true⟩ = (⟨none, true⟩, [], 0) ∧
    (checkAndNotify (Except.error "e") ⟨none, false⟩).1.isChecking = false :=
  ⟨(C2_guard (Except.error "e") ⟨none, true⟩).1 rfl,
   (C2_guard (Except.error "e") ⟨none, false⟩).2 rfl⟩

/-- C3: when the fetch fails on both the initial attempt and the retry, the
cycle emits exactly one error notification carrying the (second) error's
text, returns normally (the model's cycle is a total function, so the error
does not propagate), and leaves the stored previous snapshot unchanged —
still `none` if it was `none`. -/
theorem C3_error_cycle (fetch : Nat → Except String ParseResult)
    (e₀ e : String) (s : BotState)
    (h0 : fetch 0 = Except.error e₀) (h1 : fetch 1 = Except.error e)
    (hs : s.isChecking = false) :
    checkAndNotify (parseButtonsWithRetry fetch).1 s =
      ({ previousStatus := s.previousStatus, isChecking := false },
       [Notification.errorNotif e], 1) := by
  simp [parseButtonsWithRetry, h0, h1, checkAndNotify, hs]

/-- C3 witness: both attempts fail with "boom"; one error notification is
emitted and the previous snapshot stays `none`. -/
theorem C3_error_cycle_witness :
    checkAndNotify
        (parseButtonsWithRetry fun _ => Except.error "boom").1 ⟨none, false⟩ =
      (⟨none, false⟩, [Notification.errorNotif "boom"], 1) :=
  C3_error_cycle (fun _ => Except.error "boom") "boom" "boom" ⟨none, false⟩
    rfl rfl rfl

/-- C4: the retry wrapper returns a successful first attempt's result after a
single attempt with no delay; if the first attempt fails for any reason, it
waits exactly one fixed 2000 ms delay and returns the second attempt's
outcome unmodified (in particular a second failure propagates as-is), having
made exactly two attempts. -/
theorem C4_retry_once (fetch : Nat → Except String ParseResult) :
    (∀ r, fetch 0 = Except.ok r →
      parseButtonsWithRetry fetch = (Except.ok r, 1, [])) ∧
    (∀ e, fetch 0 = Except.error e →
      parseButtonsWithRetry fetch = (fetch 1, 2, [2000])) := by
  constructor
  · intro r h
    simp [parseButtonsWithRetry, h]
  · intro e h
    simp [parseButtonsWithRetry, h]

/-- C4 witness: a first attempt that succeeds, and a first attempt that
fails followed by a failing retry. -/
theorem C4_retry_once_witness :
    parseButtonsWithRetry
        (fun _ => Except.ok ⟨⟨false, ""⟩, ⟨false, ""⟩⟩) =
      (Except.ok ⟨⟨false, ""⟩, ⟨false, ""⟩⟩, 1, []) ∧
    parseButtonsWithRetry (fun _ => Except.error "down") =
      (Except.error "down", 2, [2000]) :=
  ⟨(C4_retry_once (fun _ => Except.ok ⟨⟨false, ""⟩, ⟨false, ""⟩⟩)).1
      ⟨⟨false, ""⟩, ⟨false, ""⟩⟩ rfl,
   (C4_retry_once (fun _ => Except.error "down")).2 "down" rfl⟩

/-- The link as the C5 claim describes it, for comparison with the code's
`buttonHrefJS`: the href resolved against the base page URL whenever the
href attribute is present, the empty string only when the element has no
href attribute. -/
def claimHref (resolve : String → String) : Option String → String
  | some h => resolve h
  | none => ""

/-- Value of `new URL(h, "https://fckairat.com/match").href` at the hrefs occurring in
the examples below: per the WHATWG URL standard an empty relative href
resolves to the base URL itself, and a plain relative path replaces the
base's last segment. -/
def resolveAtBase (h : String) : String :=
  if h = "" then "https://fckairat.com/match" else "https://fckairat.com/" ++ h

/-- C5 counterexample: a selected block whose ticket button carries the href
attribute with value `""`.  The attribute is present, and resolving it
against the base URL yields the base URL itself, yet the code's link is `""`
because JavaScript's `attr ? … : ""` test is falsy on the empty string — so
the link does not equal the resolved href even though the attribute is
present, contradicting the claim as stated. -/
theorem C5_counterexample :
    (findMatchByOpponent resolveAtBase "Актобе"
        [{ teamNames := ["Актобе"],
           ticketButtons := [{ classes := [], href := some "" }] }]).map
      ButtonStatus.href = some "" ∧
    claimHref resolveAtBase (some "") = "https://fckairat.com/match" ∧
    ("" : String) ≠ claimHref resolveAtBase (some "") := by
  refine ⟨by decide, rfl, by decide⟩

/-- C5 (amended): for the block the scan selects for an entity — the first
block containing the entity's name whose ticket-button selection is
non-empty, all earlier blocks either lacking the name or lacking the button —
availability equals the button not carrying the "disabled" class, and the
link equals the href resolved against the base page URL when the href
attribute is present and non-empty, and the empty string when the attribute
is absent or empty. -/
theorem C5_availability_and_link (resolve : String → String) (name : String)
    (pre : List MatchBlock) (b : MatchBlock) (rest : List MatchBlock)
    (hpre : ∀ p ∈ pre, blockHasOpponent p name = false ∨ p.ticketButtons = [])
    (hb : blockHasOpponent b name = true) (hbtn : b.ticketButtons ≠ []) :
    ∃ st, findMatchByOpponent resolve name (pre ++ b :: rest) = some st ∧
      (st.isEnabled = true ↔ buttonsHasClass b.ticketButtons "disabled" = false) ∧
      (∀ h, buttonsAttrHref b.ticketButtons = some h → h ≠ "" →
        st.href = resolve h) ∧
      ((buttonsAttrHref b.ticketButtons = some "" ∨
        buttonsAttrHref b.ticketButtons = none) → st.href = "") := by
  refine ⟨{ isEnabled := !(buttonsHasClass b.ticketButtons "disabled"),
            href := buttonHrefJS resolve b.ticketButtons }, ?_, ?_, ?_, ?_⟩
  · rw [findMatch_append_skipped resolve name pre _ hpre,
      findMatch_cons_found resolve name b rest hb hbtn]
  · cases buttonsHasClass b.ticketButtons "disabled" <;> simp
  · intro h hh hne
    simp [buttonHrefJS, hh, hne]
  · intro hh
    rcases hh with hh | hh <;> simp [buttonHrefJS, hh]

/-- C5 witness: the amended theorem at a concrete page — one earlier block
without the name, one name-matching block without a button, then the
selected block with a disabled-free button and href "tickets/5". -/
theorem C5_availability_and_link_witness :
    ∃ st,
      findMatchByOpponent resolveAtBase "Актобе"
          ([{ teamNames := ["Кайрат"],
              ticketButtons := [{ classes := [], href := some "z" }] },
            { teamNames := ["Актобе"], ticketButtons := [] }] ++
            [{ teamNames := [" Актобе "],
               ticketButtons := [{ classes := [], href := some "tickets/5" }] }]) =
        some st ∧
      (st.isEnabled = true ↔
        buttonsHasClass [{ classes := [], href := some "tickets/5" }]
          "disabled" = false) ∧
      (∀ h,
        buttonsAttrHref [{ classes := [], href := some "tickets/5" }] = some h →
        h ≠ "" → st.href = resolveAtBase h) ∧
      ((buttonsAttrHref [{ classes := [], href := some "tickets/5" }] = some "" ∨
        buttonsAttrHref [{ classes := [], href := some "tickets/5" }] = none) →
        st.href = "") :=
  C5_availability_and_link resolveAtBase "Актобе"
    [{ teamNames := ["Кайрат"], ticketButtons := [{ classes := [], href := some "z" }] },
     { teamNames := ["Актобе"], ticketButtons := [] }]
    { teamNames := [" Актобе "],
      ticketButtons := [{ classes := [], href := some "tickets/5" }] }
    [] (by decide) (by decide) (by decide)

/-- C6: on a page with at least one match block, if the scan finds no result
for one of the two entity names, `parseButtons` fails with the error naming
that missing entity (Актобе being checked first when both are missing), and
it never returns a snapshot — the entity is not defaulted to unavailable. -/
theorem C6_missing_entity_fails (resolve : String → String)
    (blocks : List MatchBlock) (hne : blocks ≠ []) :
    (findMatchByOpponent resolve "Актобе" blocks = none →
      parseButtons resolve blocks =
        Except.error "Match against Актобе not found on the page") ∧
    (∀ a, findMatchByOpponent resolve "Актобе" blocks = some a →
      findMatchByOpponent resolve "Реал Мадрид" blocks = none →
      parseButtons resolve blocks =
        Except.error "Match against Реал Мадрид not found on the page") ∧
    ((findMatchByOpponent resolve "Актобе" blocks = none ∨
      findMatchByOpponent resolve "Реал Мадрид" blocks = none) →
      ∀ r, parseButtons resolve blocks ≠ Except.ok r) :=
  ⟨fun ha => parseButtons_error_aktobe resolve blocks hne ha,
   fun a ha hr => parseButtons_error_realMadrid resolve blocks hne a ha hr,
   fun h => parseButtons_not_ok resolve blocks h⟩

/-- C6 witness: a page whose only block is the Реал Мадрид match, so Актобе
is missing; and a page with both blocks but Реал Мадрид lacking, so Реал
Мадрид is missing. -/
theorem C6_missing_entity_fails_witness :
    parseButtons resolveAtBase
        [{ teamNames := ["Реал Мадрид"],
           ticketButtons := [{ classes := [], href := some "a" }] }] =
      Except.error "Match against Актобе not found on the page" ∧
    parseButtons resolveAtBase
        [{ teamNames := ["Актобе"],
           ticketButtons := [{ classes := ["disabled"], href := none }] }] =
      Except.error "Match against Реал Мадрид not found on the page" :=
  ⟨(C6_missing_entity_fails resolveAtBase
      [{ teamNames := ["Реал Мадрид"],
         ticketButtons := [{ classes := [], href := some "a" }] }]
      (by decide)).1 (by decide),
   (C6_missing_entity_fails resolveAtBase
      [{ teamNames := ["Актобе"],
         ticketButtons := [{ classes := ["disabled"], href := none }] }]
      (by decide)).2.1 { isEnabled := false, href := "" }
      (by decide) (by decide)⟩

/-- C7: on a page with zero match blocks, `parseButtonsWith` fails with the
no-match-blocks error for every possible per-entity lookup — the outcome is
independent of the lookup, so no entity lookup result is consulted, and no
snapshot is produced. -/
theorem C7_zero_blocks_fails (lookup : String → Option ButtonStatus) :
    parseButtonsWith lookup [] =
      Except.error "No match blocks found on the page" := rfl

/-- C8: with no stored previous snapshot, a successful cycle emits zero
notifications and stores the current snapshot; and on every successful cycle,
whatever the previous snapshot, the current snapshot becomes the stored
previous snapshot at cycle end. -/
theorem C8_baseline_and_store (r : ParseResult) (prev : Option ParseResult) :
    checkAndNotify (Except.ok r) ⟨none, false⟩ =
      ({ previousStatus := some r, isChecking := false }, [], 1) ∧
    (checkAndNotify (Except.ok r) ⟨prev, false⟩).1.previousStatus = some r := by
  cases prev <;> simp [checkAndNotify]

/-- C9: a `/status` request from a chat id different from the configured
`CHAT_ID` performs zero fetch attempts and sends zero outbound messages, and
likewise the `/help` handler sends nothing to such a sender. -/
theorem C9_unauthorized_ignored (chatId CHAT_ID : String)
    (fetch : Nat → Except String ParseResult) (h : chatId ≠ CHAT_ID) :
    statusCommand chatId CHAT_ID fetch = ([], 0) ∧
    helpCommand chatId CHAT_ID = [] := by
  constructor <;> simp [statusCommand, helpCommand, h]

/-- C9 witness: a sender "12345" distinct from the configured id "67890". -/
theorem C9_unauthorized_ignored_witness :
    statusCommand "12345" "67890" (fun _ => Except.error "e") = ([], 0) ∧
    helpCommand "12345" "67890" = [] :=
  C9_unauthorized_ignored "12345" "67890" (fun _ => Except.error "e")
    (by decide)

/-- C10: a block that contains the entity's name but has no ticket-button
element is skipped and the scan continues with the later blocks; if every
block naming the entity lacks the button, the scan yields no result, and for
Актобе the whole parse then fails with the entity-not-found error rather
than reporting the entity unavailable. -/
theorem C10_missing_button_skipped (resolve : String → String) (name : String)
    (b : MatchBlock) (rest blocks : List MatchBlock) :
    (blockHasOpponent b name = true → b.ticketButtons = [] →
      findMatchByOpponent resolve name (b :: rest) =
        findMatchByOpponent resolve name rest) ∧
    ((∀ q ∈ blocks, blockHasOpponent q name = true → q.ticketButtons = []) →
      findMatchByOpponent resolve name blocks = none) ∧
    (blocks ≠ [] →
      (∀ q ∈ blocks, blockHasOpponent q "Актобе" = true → q.ticketButtons = []) →
      parseButtons resolve blocks =
        Except.error "Match against Актобе not found on the page") :=
  ⟨fun _ hbtn => findMatch_cons_no_button resolve name b rest hbtn,
   fun h => findMatch_none_of_all_skipped resolve name blocks h,
   fun hne h => parseButtons_error_aktobe resolve blocks hne
     (findMatch_none_of_all_skipped resolve "Актобе" blocks h)⟩

/-- C10 witness: a page whose only blocks name Актобе but carry no ticket
button (and a Реал Мадрид block with a button, which is irrelevant to the
Актобе lookup): the Актобе scan yields nothing, the skip step holds, and the
parse fails with the Актобе-not-found error. -/
theorem C10_missing_button_skipped_witness :
    (findMatchByOpponent resolveAtBase "Актобе"
        [{ teamNames := ["Актобе"], ticketButtons := [] },
         { teamNames := ["Кайрат"],
           ticketButtons := [{ classes := [], href := some "k" }] }] =
      findMatchByOpponent resolveAtBase "Актобе"
        [{ teamNames := ["Кайрат"],
           ticketButtons := [{ classes := [], href := some "k" }] }]) ∧
    (findMatchByOpponent resolveAtBase "Актобе"
        [{ teamNames := ["Актобе"], ticketButtons := [] },
         { teamNames := ["Кайрат"],
           ticketButtons := [{ classes := [], href := some "k" }] }] = none) ∧
    parseButtons resolveAtBase
        [{ teamNames := ["Актобе"], ticketButtons := [] },
         { teamNames := ["Кайрат"],
           ticketButtons := [{ classes := [], href := some "k" }] }] =
      Except.error "Match against Актобе not found on the page" := by
  have h := C10_missing_button_skipped resolveAtBase "Актобе"
    { teamNames := ["Актобе"], ticketButtons := [] }
    [{ teamNames := ["Кайрат"],
       ticketButtons := [{ classes := [], href := some "k" }] }]
    [{ teamNames := ["Актобе"], ticketButtons := [] },
     { teamNames := ["Кайрат"],
       ticketButtons := [{ classes := [], href := some "k" }] }]
  exact ⟨h.1 (by decide) (by decide),
    h.2.1 (by decide),
    h.2.2 (by decide) (by decide)⟩

end KairatNotify
